import Mathlib

/-!
Verification of the OnOff Integration Store component
(custom_components/onoff_integration_store): the package ledger
(coordinator.py), the Gitea registry client (gitea.py) and the HTTP
gateway views (dashboard.py), shallowly embedded in Lean 4.

Strings are modelled by Lean `String`; Python `str.lower()` and
`str.replace("-", "_")` are character-wise maps, embedded as maps over
the underlying character list.  `datetime.now().isoformat()` is an
opaque timestamp string passed in as a parameter.  Network calls and
storage are modelled by explicit outcome parameters and an explicit
persisted copy of the table.
-/

namespace OnOffStore

/-- Python `s.lower()` (character-wise; the repository only uses ASCII
identifiers). -/
def pyLower (s : String) : String :=
  ⟨s.data.map Char.toLower⟩

/-- Python `s.replace("-", "_")`: the pattern is a single character, so
this is a character-wise map. -/
def pyReplaceDash (s : String) : String :=
  ⟨s.data.map (fun c => if c = '-' then '_' else c)⟩

/-- coordinator.py line 68 and line 243:
`f"{owner}_{repo_name}".lower().replace("-", "_")`. -/
def packageId (owner repo_name : String) : String :=
  pyReplaceDash (pyLower (owner ++ "_" ++ repo_name))

/-- The spec's own derivation rule, written from its words: the
lowercase form of `"<owner>_<repo>"` with every hyphen replaced by an
underscore.  Kept separate from `packageId` so the two can be compared. -/
def specPackageId (owner repo_name : String) : String :=
  ⟨((owner ++ "_" ++ repo_name).data.map Char.toLower).map
    (fun c => if c = '-' then '_' else c)⟩

/-- One row of the ledger, the `package_data` dict built in
`async_add_or_update_package` (coordinator.py lines 77-89). -/
structure PackageRecord where
  repo_name : String
  owner : String
  package_type : String
  installed_version : String
  latest_version : String
  update_available : Bool
  install_date : String
  last_update : String
  last_check : Option String
  mode : Option String
  asset_name : Option String
deriving Repr, DecidableEq

/-- `self.packages`: a Python dict from package_id to record, embedded
as an association list in insertion order. -/
abbrev Packages := List (String × PackageRecord)

/-- `self.packages[package_id] = package_data`: replace in place when the
key exists, append otherwise (Python dict update keeps position). -/
def setPkg (ps : Packages) (k : String) (v : PackageRecord) : Packages :=
  if (ps.lookup k).isSome then
    ps.map (fun p => if p.1 = k then (k, v) else p)
  else
    ps ++ [(k, v)]

/-- Coordinator state: the in-memory table, the last persisted copy of
the table (`Store.async_save`), and how many saves have happened. -/
structure Coordinator where
  packages : Packages
  store : Option Packages
  saveCount : Nat
deriving Repr, DecidableEq

/-- `async_save_packages` (coordinator.py lines 52-56): persist the whole
table. -/
def async_save_packages (c : Coordinator) : Coordinator :=
  { c with store := some c.packages, saveCount := c.saveCount + 1 }

/-- `async_add_or_update_package` (coordinator.py lines 58-119), the
ledger mutation only (sensor/device-registry side effects are out of
scope).  `now` stands for `datetime.now().isoformat()`. -/
def async_add_or_update_package (c : Coordinator) (repo_name owner : String)
    (package_type installed_version : String) (mode asset_name : Option String)
    (now : String) : Coordinator × String :=
  let package_id := packageId owner repo_name
  let existing_data := c.packages.lookup package_id
  let package_data : PackageRecord :=
    { repo_name := repo_name
      owner := owner
      package_type := package_type
      installed_version := installed_version
      latest_version := installed_version
      update_available := false
      install_date := (existing_data.map (fun d => d.install_date)).getD now
      last_update := now
      last_check := existing_data.bind (fun d => d.last_check)
      mode := mode
      asset_name := asset_name }
  let c1 : Coordinator := { c with packages := setPkg c.packages package_id package_data }
  (async_save_packages c1, package_id)

/-- `get_package_by_repo` (coordinator.py lines 241-244). -/
def get_package_by_repo (c : Coordinator) (owner repo_name : String) :
    Option PackageRecord :=
  c.packages.lookup (packageId owner repo_name)

/-- Outcome of `client.get_latest_release(owner, repo)` as observed by
`async_check_updates`: the call raises, or returns a falsy value
(`if latest_release:` fails), or returns a release whose `tag_name`
field may be absent. -/
inductive FetchOutcome where
  | throws (msg : String)
  | falsy
  | release (tag_name : Option String)
deriving Repr, DecidableEq

/-- The per-package body of the sweep loop in `async_check_updates`
(coordinator.py lines 186-227). -/
def checkOnePackage (fetch : String → String → FetchOutcome) (now : String)
    (pd : PackageRecord) : PackageRecord :=
  match fetch pd.owner pd.repo_name with
  | .throws _ => { pd with last_check := some now }
  | .falsy => { pd with last_check := some now }
  | .release tag =>
    let latest_version := tag.getD "unknown"
    { pd with
      latest_version := latest_version
      update_available := latest_version ≠ pd.installed_version
      last_check := some now }

/-- `async_check_updates` (coordinator.py lines 178-235): early return on
an empty table, otherwise sweep every record and persist once at the
end.  `fetch` gives the outcome of `get_latest_release` per
(owner, repo); `now` stands for `datetime.now().isoformat()`. -/
def async_check_updates (c : Coordinator) (fetch : String → String → FetchOutcome)
    (now : String) : Coordinator :=
  if c.packages = [] then c
  else
    async_save_packages
      { c with packages := c.packages.map (fun p => (p.1, checkOnePackage fetch now p.2)) }

/-! ### gitea.py: registry client -/

/-- A release asset dict; `name` may be absent (`a.get("name")`). -/
structure Asset where
  name : Option String
deriving Repr, DecidableEq

/-- A release dict; `assets` may be absent or null
(`release.get("assets") or []`). -/
structure Release where
  assets : Option (List Asset)
deriving Repr, DecidableEq

/-- The three distinct `RuntimeError` sites of `pick_asset`. -/
inductive PickError where
  | noAssets
  | nameNotFound (n : String)
  | ambiguous
deriving Repr, DecidableEq

/-- Python truthiness of an optional string: `None` and `""` are falsy. -/
def pyTruthy (o : Option String) : Bool :=
  match o with
  | none => false
  | some s => s != ""

/-- Python `s.endswith(suffix)`: the suffix relation on the character
lists. -/
def pyEndsWith (s suffix : String) : Bool :=
  suffix.data.isSuffixOf s.data

/-- The `.zip` test of `pick_asset`:
`(a.get("name") or "").lower().endswith(".zip")`. -/
def isZipAsset (a : Asset) : Bool :=
  pyEndsWith (pyLower (a.name.getD "")) ".zip"

/-- `pick_asset` (gitea.py lines 63-82). -/
def pick_asset (release : Release) (asset_name : Option String) :
    Except PickError Asset :=
  let assets := release.assets.getD []
  if assets = [] then .error .noAssets
  else if pyTruthy asset_name then
    match assets.find? (fun a => a.name == asset_name) with
    | some a => .ok a
    | none => .error (.nameNotFound (asset_name.getD ""))
  else
    match assets.filter isZipAsset with
    | [z] => .ok z
    | _ =>
      match assets with
      | [a] => .ok a
      | _ => .error .ambiguous

/-- Client state: `self.token = token or None` makes an empty token
`None` (gitea.py line 15). -/
structure GiteaClient where
  token : Option String
deriving Repr, DecidableEq

/-- `GiteaClient.__init__`: normalise the token. -/
def GiteaClient.init (token : Option String) : GiteaClient :=
  ⟨if pyTruthy token then token else none⟩

/-- Outcome of the `GET /api/v1/user` probe: an HTTP status, or a raised
exception. -/
inductive ProbeOutcome where
  | status (code : Nat)
  | throws (msg : String)
deriving Repr, DecidableEq

/-- Result of `test_auth`: the returned boolean, and whether the network
was touched at all. -/
structure AuthResult where
  ok : Bool
  networkCalled : Bool
deriving Repr, DecidableEq

/-- `test_auth` (gitea.py lines 24-37): true without a network call when
no token is set; otherwise probe `/api/v1/user`, true exactly on 200,
false (never raising) when the probe throws. -/
def test_auth (c : GiteaClient) (probe : ProbeOutcome) : AuthResult :=
  match c.token with
  | none => ⟨true, false⟩
  | some _ =>
    match probe with
    | .status code => ⟨code = 200, true⟩
    | .throws _ => ⟨false, true⟩

/-! ### dashboard.py: HTTP gateway views

Each view resolves `hass.data[DOMAIN]` and an entry id the same way,
then runs its underlying operation inside a `try`/`except` that turns
any exception into an HTTP error response.  `hd` models
`hass.data[DOMAIN]` (absent, or a dict from entry id to the stored
component); the underlying operations are outcome parameters, indexed
by the resolved entry id where the code uses the resolved component. -/

/-- The per-entry dict stored in `hass.data[DOMAIN][eid]`: whether the
`"client"` and `"coordinator"` keys hold a live object. -/
structure Comp where
  client : Bool
  coordinator : Bool
deriving Repr, DecidableEq

/-- `hass.data[DOMAIN]`: absent, or a dict of entry ids in insertion
order. -/
abbrev HassData := Option (List (String × Comp))

/-- The shared resolution prologue of every view (e.g. dashboard.py
lines 75-85): fail when the domain dict is absent, keep the stored id
when present, otherwise fall back to the first entry; fail when there
are none. -/
def resolveEid (hd : HassData) (eid : String) : Option (String × Comp) :=
  match hd with
  | none => none
  | some comps =>
    match comps.lookup eid with
    | some c => some (eid, c)
    | none => comps.head?

/-- Response bodies the views build, split by shape: a JSON object with
an `"error"` field, the JSON `{"success": true}` object, a JSON data
payload, a plain-text body, a markdown body. -/
inductive RespBody where
  | jsonError (msg : String)
  | jsonOk
  | jsonData
  | text (s : String)
  | markdown (s : String)
deriving Repr, DecidableEq

/-- An aiohttp response: status code and body. -/
structure Resp where
  status : Nat
  body : RespBody
deriving Repr, DecidableEq

/-- Does the body carry a JSON error object? -/
def isJsonError (b : RespBody) : Bool :=
  match b with
  | .jsonError _ => true
  | _ => false

/-- HTTP error statuses (4xx / 5xx). -/
def isErrorStatus (n : Nat) : Bool :=
  400 ≤ n

/-- A parsed JSON request body holding optional `owner` and `repo`
fields, or the exception raised while reading it. -/
abbrev BodyParse := Except String (Option String × Option String)

/-- `OnOffStoreReposView.get` (dashboard.py lines 70-162).  `op e` is
the outcome of the whole listing body run against entry `e`; any
exception it raises is caught and turned into a 500 JSON error. -/
def reposView_get (eid : String) (hd : HassData)
    (op : String → Except String Unit) : Resp :=
  match resolveEid hd eid with
  | none => ⟨503, .jsonError "Integration not ready"⟩
  | some (e, _) =>
    match op e with
    | .ok _ => ⟨200, .jsonData⟩
    | .error m => ⟨500, .jsonError m⟩

/-- `OnOffStoreInstallView.post` (dashboard.py lines 227-257).  The
service call does not use the resolved component, so `svc` is a single
outcome. -/
def installView_post (eid : String) (hd : HassData) (body : BodyParse)
    (svc : Except String Unit) : Resp :=
  match resolveEid hd eid with
  | none => ⟨503, .jsonError "Integration not ready"⟩
  | some _ =>
    match body with
    | .error m => ⟨500, .jsonError m⟩
    | .ok (o, r) =>
      if !pyTruthy o || !pyTruthy r then ⟨400, .jsonError "Missing params"⟩
      else
        match svc with
        | .ok _ => ⟨200, .jsonOk⟩
        | .error m => ⟨500, .jsonError m⟩

/-- Python `txt or "No README found for this repository."`. -/
def readmeText (txt : Option String) : String :=
  if pyTruthy txt then txt.getD "" else "No README found for this repository."

/-- `OnOffStoreReadmeView.get` (dashboard.py lines 269-283).  A missing
client makes `client.get_readme` raise; both that and a raising fetch
land in the bare `except` returning plain text `"Error"`. -/
def readmeView_get (eid : String) (hd : HassData)
    (op : String → Except String (Option String)) : Resp :=
  match resolveEid hd eid with
  | none => ⟨503, .text "Not ready"⟩
  | some (e, c) =>
    if c.client then
      match op e with
      | .ok txt => ⟨200, .markdown (readmeText txt)⟩
      | .error _ => ⟨500, .text "Error"⟩
    else ⟨500, .text "Error"⟩

/-- `OnOffStoreRefreshView.post` (dashboard.py lines 295-311). -/
def refreshView_post (eid : String) (hd : HassData)
    (op : String → Except String Unit) : Resp :=
  match resolveEid hd eid with
  | none => ⟨503, .jsonError "Integration not ready"⟩
  | some (e, c) =>
    if c.coordinator then
      match op e with
      | .ok _ => ⟨200, .jsonOk⟩
      | .error m => ⟨500, .jsonError m⟩
    else ⟨503, .jsonError "Coordinator missing"⟩

/-- `OnOffStoreAddCustomView.post` (dashboard.py lines 323-344): parses
the body and checks params before resolving the entry. -/
def addCustomView_post (eid : String) (hd : HassData) (body : BodyParse)
    (op : String → Except String Unit) : Resp :=
  match body with
  | .error m => ⟨500, .jsonError m⟩
  | .ok (o, r) =>
    if !pyTruthy o || !pyTruthy r then ⟨400, .jsonError "Missing params"⟩
    else
      match resolveEid hd eid with
      | none => ⟨503, .jsonError "Not ready"⟩
      | some (e, c) =>
        if c.coordinator then
          match op e with
          | .ok _ => ⟨200, .jsonOk⟩
          | .error m => ⟨500, .jsonError m⟩
        else ⟨503, .jsonError "Coordinator missing"⟩

/-- `OnOffStoreHideView.post` (dashboard.py lines 356-374): parses the
body (no params check) before resolving the entry. -/
def hideView_post (eid : String) (hd : HassData) (body : BodyParse)
    (op : String → Except String Unit) : Resp :=
  match body with
  | .error m => ⟨500, .jsonError m⟩
  | .ok _ =>
    match resolveEid hd eid with
    | none => ⟨503, .jsonError "Not ready"⟩
    | some (e, c) =>
      if c.coordinator then
        match op e with
        | .ok _ => ⟨200, .jsonOk⟩
        | .error m => ⟨500, .jsonError m⟩
      else ⟨503, .jsonError "Coordinator missing"⟩

/-- `OnOffStoreUnhideView.post` (dashboard.py lines 386-405): same shape
as the hide view. -/
def unhideView_post (eid : String) (hd : HassData) (body : BodyParse)
    (op : String → Except String Unit) : Resp :=
  match body with
  | .error m => ⟨500, .jsonError m⟩
  | .ok _ =>
    match resolveEid hd eid with
    | none => ⟨503, .jsonError "Not ready"⟩
    | some (e, c) =>
      if c.coordinator then
        match op e with
        | .ok _ => ⟨200, .jsonOk⟩
        | .error m => ⟨500, .jsonError m⟩
      else ⟨503, .jsonError "Coordinator missing"⟩

/-- `OnOffStoreUninstallView.post` (dashboard.py lines 417-441): parses
the body and checks params before resolving the entry; `op e` covers the
folder deletion and the ledger removal. -/
def uninstallView_post (eid : String) (hd : HassData) (body : BodyParse)
    (op : String → Except String Unit) : Resp :=
  match body with
  | .error m => ⟨500, .jsonError m⟩
  | .ok (o, r) =>
    if !pyTruthy o || !pyTruthy r then ⟨400, .jsonError "Missing params"⟩
    else
      match resolveEid hd eid with
      | none => ⟨503, .jsonError "Not ready"⟩
      | some (e, c) =>
        if c.coordinator then
          match op e with
          | .ok _ => ⟨200, .jsonOk⟩
          | .error m => ⟨500, .jsonError m⟩
        else ⟨503, .jsonError "Coordinator missing"⟩

/-! ### Helper lemmas -/

theorem char_toNat_ofNat_of_valid (n : Nat) (h : n.isValidChar) :
    (Char.ofNat n).toNat = n := by
  rw [Char.ofNat, dif_pos h]
  rfl

theorem toLower_toNat (c : Char) :
    c.toLower.toNat = if 65 ≤ c.toNat ∧ c.toNat ≤ 90 then c.toNat + 32 else c.toNat := by
  unfold Char.toLower
  by_cases h : 65 ≤ c.toNat ∧ c.toNat ≤ 90
  · rw [if_pos h, if_pos h, char_toNat_ofNat_of_valid]
    left
    omega
  · rw [if_neg h, if_neg h]

theorem toLower_eq_self (c : Char) (h : ¬(65 ≤ c.toNat ∧ c.toNat ≤ 90)) :
    c.toLower = c := by
  unfold Char.toLower
  rw [if_neg h]

theorem toLower_idem (c : Char) : c.toLower.toLower = c.toLower := by
  by_cases h : 65 ≤ c.toNat ∧ c.toNat ≤ 90
  · apply toLower_eq_self
    rw [toLower_toNat, if_pos h]
    omega
  · rw [toLower_eq_self c h, toLower_eq_self c h]

theorem lookup_map_replace (ps : Packages) (k : String) (v : PackageRecord)
    (h : (ps.lookup k).isSome) :
    (ps.map (fun p => if p.1 = k then (k, v) else p)).lookup k = some v := by
  induction ps with
  | nil => simp at h
  | cons p t ih =>
    obtain ⟨a, b⟩ := p
    by_cases ha : a = k
    · simp [List.lookup_cons, ha]
    · have hk : (k == a) = false := by
        rw [beq_eq_false_iff_ne]
        exact fun e => ha e.symm
      rw [List.lookup_cons, hk] at h
      simp only [Bool.false_eq_true, if_false] at h
      simp only [List.map_cons, if_neg ha, List.lookup_cons, hk,
        Bool.false_eq_true, if_false]
      exact ih h

theorem lookup_append_single (ps : Packages) (k : String) (v : PackageRecord)
    (h : ps.lookup k = none) :
    (ps ++ [(k, v)]).lookup k = some v := by
  induction ps with
  | nil => simp [List.lookup_cons]
  | cons p t ih =>
    rw [List.lookup_cons] at h
    by_cases hk : (k == p.1) = true
    · rw [hk] at h
      simp at h
    · have hk2 : (k == p.1) = false := by
        simpa using hk
      rw [hk2] at h
      simp only [Bool.false_eq_true, if_false] at h
      rw [List.cons_append, List.lookup_cons, hk2]
      simp only [Bool.false_eq_true, if_false]
      exact ih h

theorem lookup_setPkg (ps : Packages) (k : String) (v : PackageRecord) :
    (setPkg ps k v).lookup k = some v := by
  unfold setPkg
  by_cases h : (ps.lookup k).isSome
  · rw [if_pos h]
    exact lookup_map_replace ps k v h
  · rw [if_neg h]
    apply lookup_append_single
    cases he : ps.lookup k with
    | none => rfl
    | some w => rw [he] at h; simp at h

theorem pyLower_packageId (owner repo_name : String) :
    pyLower (packageId owner repo_name) = packageId owner repo_name := by
  unfold packageId pyReplaceDash pyLower
  simp only [List.map_map]
  apply congrArg String.mk
  apply List.map_congr_left
  intro x _
  show (if x.toLower = '-' then '_' else x.toLower).toLower
      = if x.toLower = '-' then '_' else x.toLower
  by_cases hd : x.toLower = '-'
  · simp only [if_pos hd]
    decide
  · simp only [if_neg hd]
    exact toLower_idem x

theorem hyphen_notin_packageId (owner repo_name : String) :
    '-' ∉ (packageId owner repo_name).data := by
  intro hmem
  unfold packageId pyReplaceDash pyLower at hmem
  simp only [List.map_map, List.mem_map] at hmem
  obtain ⟨x, _, hfx⟩ := hmem
  simp only [Function.comp] at hfx
  by_cases hd : x.toLower = '-'
  · rw [if_pos hd] at hfx
    exact absurd hfx (by decide)
  · rw [if_neg hd] at hfx
    exact hd hfx

/-- C1 (amended: the concrete example owner="My-Org", repo="Foo-Bar"
yields "my_org_foo_bar", not the spec's "my_org_foobar").  The package
identifier computed by `async_add_or_update_package` and used by
`get_package_by_repo` equals the lowercase form of "<owner>_<repo_name>"
with every hyphen replaced by an underscore; it is a pure function of
(owner, repo_name) — the same on every call, whatever the ledger state
and other arguments — and its result is lowercase and hyphen-free. -/
theorem packageId_lower_hyphenfree_stable (owner repo_name : String)
    (c : Coordinator) (pt v now : String) (mode asset : Option String) :
    (async_add_or_update_package c repo_name owner pt v mode asset now).2
        = packageId owner repo_name
    ∧ get_package_by_repo c owner repo_name
        = c.packages.lookup (packageId owner repo_name)
    ∧ packageId owner repo_name = specPackageId owner repo_name
    ∧ pyLower (packageId owner repo_name) = packageId owner repo_name
    ∧ '-' ∉ (packageId owner repo_name).data
    ∧ packageId "My-Org" "Foo-Bar" = "my_org_foo_bar" := by
  refine ⟨rfl, rfl, rfl, pyLower_packageId owner repo_name,
    hyphen_notin_packageId owner repo_name, by decide⟩

/-- C1 counterexample: as stated, the claim asserts that
owner="My-Org", repo="Foo-Bar" yields "my_org_foobar"; the code's
`async_add_or_update_package` returns "my_org_foo_bar" instead. -/
theorem packageId_example_refutation :
    (async_add_or_update_package ⟨[], none, 0⟩ "Foo-Bar" "My-Org"
        "integration" "v1.0" none none "2026-01-01T00:00:00").2
      ≠ "my_org_foobar" := by
  decide

/-- C2: for every ledger state, `async_add_or_update_package` returns
the derived package id, persists the table, and stores a record whose
`latest_version` equals `installed_version` (the version argument) and
whose `update_available` is false; when a record with the derived id
already existed, the stored record keeps its original `install_date`. -/
theorem add_or_update_resets_update_state
    (c : Coordinator) (repo_name owner pt v : String)
    (mode asset : Option String) (now : String) :
    (async_add_or_update_package c repo_name owner pt v mode asset now).2
        = packageId owner repo_name
    ∧ (async_add_or_update_package c repo_name owner pt v mode asset now).1.store
        = some (async_add_or_update_package c repo_name owner pt v mode asset now).1.packages
    ∧ ∃ rec : PackageRecord,
        (async_add_or_update_package c repo_name owner pt v mode asset
            now).1.packages.lookup (packageId owner repo_name) = some rec
        ∧ rec.installed_version = v
        ∧ rec.latest_version = v
        ∧ rec.update_available = false
        ∧ (∀ old : PackageRecord,
            c.packages.lookup (packageId owner repo_name) = some old →
            rec.install_date = old.install_date) := by
  refine ⟨rfl, rfl, _, lookup_setPkg _ _ _, rfl, rfl, rfl, ?_⟩
  intro old hold
  show ((c.packages.lookup (packageId owner repo_name)).map
      (fun d => d.install_date)).getD now = old.install_date
  rw [hold]
  rfl

/-- C2 witness: re-installing "acme/cards" at version v2.0 over an
existing record keeps the original install date "t0" while resetting
the update state. -/
theorem add_or_update_resets_update_state_witness :
    ∃ rec : PackageRecord,
      (async_add_or_update_package
          ⟨[("acme_cards",
              ⟨"cards", "acme", "lovelace", "v1.0", "v1.1", true,
                "t0", "t0", some "t1", none, none⟩)], none, 0⟩
          "cards" "acme" "lovelace" "v2.0" none none "t2").1.packages.lookup
          "acme_cards" = some rec
      ∧ rec.installed_version = "v2.0"
      ∧ rec.latest_version = "v2.0"
      ∧ rec.update_available = false
      ∧ rec.install_date = "t0" := by
  obtain ⟨h1, h2, rec, hl, hi, hlat, hu, hd⟩ :=
    add_or_update_resets_update_state
      ⟨[("acme_cards",
          ⟨"cards", "acme", "lovelace", "v1.0", "v1.1", true,
            "t0", "t0", some "t1", none, none⟩)], none, 0⟩
      "cards" "acme" "lovelace" "v2.0" none none "t2"
  have hid : packageId "acme" "cards" = "acme_cards" := by decide
  rw [hid] at hl
  refine ⟨rec, hl, hi, hlat, hu, ?_⟩
  exact hd ⟨"cards", "acme", "lovelace", "v1.0", "v1.1", true,
    "t0", "t0", some "t1", none, none⟩ (by rw [hid]; rfl)

/-- C9: on a re-install of an already-tracked package the stored record
keeps the old `last_check` and `install_date`, and every other field is
freshly set by the new call: `repo_name`, `owner`, `package_type`,
`installed_version` from the arguments, `latest_version` to the new
version, `update_available` to false, `last_update` to the call time,
and `mode` / `asset_name` to the new optional arguments — so omitting
them resets those fields to null even when the old record had values. -/
theorem reinstall_frame_conditions
    (c : Coordinator) (repo_name owner pt v : String)
    (mode asset : Option String) (now : String) (old : PackageRecord)
    (h : c.packages.lookup (packageId owner repo_name) = some old) :
    (async_add_or_update_package c repo_name owner pt v mode asset
        now).1.packages.lookup (packageId owner repo_name)
      = some { repo_name := repo_name, owner := owner, package_type := pt,
               installed_version := v, latest_version := v,
               update_available := false, install_date := old.install_date,
               last_update := now, last_check := old.last_check,
               mode := mode, asset_name := asset } := by
  unfold async_add_or_update_package
  simp only [h]
  exact lookup_setPkg _ _ _

/-- C9 witness: re-installing "acme/cards" without `mode` and
`asset_name` keeps `install_date` "t0" and `last_check` "t1" and resets
`mode` and `asset_name` to null. -/
theorem reinstall_frame_conditions_witness :
    (async_add_or_update_package
        ⟨[("acme_cards",
            ⟨"cards", "acme", "lovelace", "v1.0", "v1.1", true,
              "t0", "t0", some "t1", some "release", some "x.zip"⟩)],
          none, 0⟩
        "cards" "acme" "integration" "v2.0" none none "t2").1.packages.lookup
        "acme_cards"
      = some ⟨"cards", "acme", "integration", "v2.0", "v2.0", false,
          "t0", "t2", some "t1", none, none⟩ := by
  have hid : packageId "acme" "cards" = "acme_cards" := by decide
  have hres := reinstall_frame_conditions
    ⟨[("acme_cards",
        ⟨"cards", "acme", "lovelace", "v1.0", "v1.1", true,
          "t0", "t0", some "t1", some "release", some "x.zip"⟩)],
      none, 0⟩
    "cards" "acme" "integration" "v2.0" none none "t2"
    ⟨"cards", "acme", "lovelace", "v1.0", "v1.1", true,
      "t0", "t0", some "t1", some "release", some "x.zip"⟩
    (by rw [hid]; rfl)
  rw [hid] at hres
  exact hres

theorem pyNorm_append (a b : String) :
    pyReplaceDash (pyLower (a ++ b))
      = pyReplaceDash (pyLower a) ++ pyReplaceDash (pyLower b) := by
  apply String.ext
  simp [pyReplaceDash, pyLower, List.map_append]

theorem packageId_congr (o r o2 r2 : String)
    (ho : pyReplaceDash (pyLower o2) = pyReplaceDash (pyLower o))
    (hr : pyReplaceDash (pyLower r2) = pyReplaceDash (pyLower r)) :
    packageId o2 r2 = packageId o r := by
  unfold packageId
  rw [pyNorm_append, pyNorm_append, pyNorm_append, pyNorm_append, ho, hr]

/-- C10: immediately after `async_add_or_update_package`,
`get_package_by_repo` applied to any owner and repo that differ from the
installed ones only up to letter case or hyphen-versus-underscore
returns exactly the stored record, because lookup derives the identifier
the same way as insertion; and on a state with no record under the
derived identifier, `get_package_by_repo` returns null. -/
theorem lookup_roundtrip_after_install
    (c : Coordinator) (repo_name owner pt v : String)
    (mode asset : Option String) (now : String) (owner2 repo2 : String)
    (ho : pyReplaceDash (pyLower owner2) = pyReplaceDash (pyLower owner))
    (hr : pyReplaceDash (pyLower repo2) = pyReplaceDash (pyLower repo_name)) :
    (∃ rec : PackageRecord,
        get_package_by_repo
            (async_add_or_update_package c repo_name owner pt v mode asset
              now).1 owner2 repo2 = some rec
        ∧ (async_add_or_update_package c repo_name owner pt v mode asset
              now).1.packages.lookup (packageId owner repo_name) = some rec)
    ∧ ∀ (st : Coordinator) (o r : String),
        st.packages.lookup (packageId o r) = none →
        get_package_by_repo st o r = none := by
  constructor
  · have hid := packageId_congr owner repo_name owner2 repo2 ho hr
    refine ⟨_, ?_, lookup_setPkg _ _ _⟩
    unfold get_package_by_repo
    rw [hid]
    exact lookup_setPkg _ _ _
  · intro st o r h
    unfold get_package_by_repo
    exact h

/-- C10 witness: after installing owner "My-Org", repo "Foo-Bar", the
lookup with owner "my_org" and repo "FOO-BAR" finds the stored record. -/
theorem lookup_roundtrip_after_install_witness :
    ∃ rec : PackageRecord,
      get_package_by_repo
          (async_add_or_update_package ⟨[], none, 0⟩ "Foo-Bar" "My-Org"
            "integration" "v1.0" none none "t0").1 "my_org" "FOO-BAR"
        = some rec := by
  obtain ⟨⟨rec, h1, _⟩, _⟩ :=
    lookup_roundtrip_after_install ⟨[], none, 0⟩ "Foo-Bar" "My-Org"
      "integration" "v1.0" none none "t0" "my_org" "FOO-BAR"
      (by decide) (by decide)
  exact ⟨rec, h1⟩

/-- C3: in a non-empty ledger, a package whose release fetch throws ends
the sweep with all of its version fields and `update_available`
unchanged and only `last_check` stamped; every package of the table is
still processed by its own fetch outcome (no abort), and the whole table
is persisted exactly once at the end. -/
theorem check_updates_failure_isolated
    (c : Coordinator) (fetch : String → String → FetchOutcome) (now : String)
    (hne : c.packages ≠ []) (pid : String) (pd : PackageRecord) (msg : String)
    (hmem : (pid, pd) ∈ c.packages)
    (hthrow : fetch pd.owner pd.repo_name = .throws msg) :
    ((pid, { pd with last_check := some now })
        ∈ (async_check_updates c fetch now).packages)
    ∧ (∀ (pid2 : String) (pd2 : PackageRecord), (pid2, pd2) ∈ c.packages →
        (pid2, checkOnePackage fetch now pd2)
          ∈ (async_check_updates c fetch now).packages)
    ∧ (async_check_updates c fetch now).packages.length = c.packages.length
    ∧ (async_check_updates c fetch now).saveCount = c.saveCount + 1
    ∧ (async_check_updates c fetch now).store
        = some (async_check_updates c fetch now).packages := by
  have hstep : checkOnePackage fetch now pd = { pd with last_check := some now } := by
    unfold checkOnePackage
    rw [hthrow]
  unfold async_check_updates
  rw [if_neg hne]
  refine ⟨?_, ?_, by simp [async_save_packages], rfl, rfl⟩
  · rw [← hstep]
    exact List.mem_map_of_mem _ hmem
  · intro pid2 pd2 hm2
    exact List.mem_map_of_mem _ hm2

/-- C3 witness: with two tracked packages where the fetch for
"acme/bad" throws and the one for "acme/good" succeeds, the bad package
keeps its versions and update state with `last_check` stamped, the good
package is still updated, and exactly one save happens. -/
theorem check_updates_failure_isolated_witness :
    (("acme_bad",
        (⟨"bad", "acme", "integration", "v1", "v1", false,
          "t0", "t0", some "T1", none, none⟩ : PackageRecord))
      ∈ (async_check_updates
          ⟨[("acme_bad",
              ⟨"bad", "acme", "integration", "v1", "v1", false,
                "t0", "t0", none, none, none⟩),
            ("acme_good",
              ⟨"good", "acme", "integration", "v1", "v1", false,
                "t0", "t0", none, none, none⟩)], none, 0⟩
          (fun _ r => if r = "bad" then .throws "boom" else .release (some "v2"))
          "T1").packages)
    ∧ (async_check_updates
        ⟨[("acme_bad",
            ⟨"bad", "acme", "integration", "v1", "v1", false,
              "t0", "t0", none, none, none⟩),
          ("acme_good",
            ⟨"good", "acme", "integration", "v1", "v1", false,
              "t0", "t0", none, none, none⟩)], none, 0⟩
        (fun _ r => if r = "bad" then .throws "boom" else .release (some "v2"))
        "T1").saveCount = 1 := by
  obtain ⟨h1, _, _, h4, _⟩ := check_updates_failure_isolated
    ⟨[("acme_bad",
        ⟨"bad", "acme", "integration", "v1", "v1", false,
          "t0", "t0", none, none, none⟩),
      ("acme_good",
        ⟨"good", "acme", "integration", "v1", "v1", false,
          "t0", "t0", none, none, none⟩)], none, 0⟩
    (fun _ r => if r = "bad" then .throws "boom" else .release (some "v2"))
    "T1" (by decide) "acme_bad"
    ⟨"bad", "acme", "integration", "v1", "v1", false,
      "t0", "t0", none, none, none⟩
    "boom" (by decide) (by decide)
  exact ⟨h1, h4⟩

/-- C5: from an empty ledger, installing "acme/cards" as a lovelace
package at "v1.0" leaves exactly one record with
`installed_version = latest_version = "v1.0"` and no update available;
a subsequent update check whose remote latest tag is "v1.1" leaves that
record with `latest_version = "v1.1"`, `update_available = true` (the
tags differ as strings) and `last_check` set. -/
theorem install_then_update_scenario :
    (async_add_or_update_package ⟨[], none, 0⟩ "cards" "acme" "lovelace"
        "v1.0" none none "t0").1.packages
      = [("acme_cards",
          ⟨"cards", "acme", "lovelace", "v1.0", "v1.0", false,
            "t0", "t0", none, none, none⟩)]
    ∧ (async_check_updates
          (async_add_or_update_package ⟨[], none, 0⟩ "cards" "acme"
              "lovelace" "v1.0" none none "t0").1
          (fun _ _ => .release (some "v1.1")) "t1").packages
      = [("acme_cards",
          ⟨"cards", "acme", "lovelace", "v1.0", "v1.1", true,
            "t0", "t0", some "t1", none, none⟩)] := by
  constructor <;> decide

/-- C4: `pick_asset` resolves a release asset as follows — with an
`asset_name` it returns an asset with exactly that name and fails with
a not-found error when no asset matches; without one it returns the
sole `.zip` asset when exactly one exists (even among several non-zip
assets), otherwise the sole asset when the release has exactly one in
total, and otherwise fails as ambiguous — in particular it fails when
two `.zip` assets exist, and fails when the release has no assets at
all. -/
theorem pick_asset_resolution :
    (∀ (assets : List Asset) (n : String) (a : Asset), n ≠ "" →
        pick_asset ⟨some assets⟩ (some n) = .ok a →
        a ∈ assets ∧ a.name = some n)
    ∧ (∀ (assets : List Asset) (n : String), n ≠ "" → assets ≠ [] →
        (∀ x ∈ assets, x.name ≠ some n) →
        pick_asset ⟨some assets⟩ (some n) = .error (.nameNotFound n))
    ∧ (∀ (assets : List Asset) (z : Asset),
        assets.filter isZipAsset = [z] →
        pick_asset ⟨some assets⟩ none = .ok z)
    ∧ (∀ a : Asset, pick_asset ⟨some [a]⟩ none = .ok a)
    ∧ (∀ assets : List Asset, (assets.filter isZipAsset).length = 2 →
        pick_asset ⟨some assets⟩ none = .error .ambiguous)
    ∧ (∀ n : Option String,
        pick_asset ⟨some []⟩ n = .error .noAssets
        ∧ pick_asset ⟨none⟩ n = .error .noAssets) := by
  refine ⟨?_, ?_, ?_, ?_, ?_, ?_⟩
  · intro assets n a hn h
    by_cases he : assets = []
    · subst he
      simp [pick_asset] at h
    · rw [pick_asset] at h
      simp only [Option.getD_some, if_neg he, pyTruthy] at h
      rw [if_pos (by simpa using hn)] at h
      cases hf : assets.find? (fun x => x.name == some n) with
      | none => rw [hf] at h; cases h
      | some b =>
        rw [hf] at h
        cases h
        refine ⟨List.mem_of_find?_eq_some hf, ?_⟩
        have := List.find?_some hf
        simpa using this
  · intro assets n hn he hall
    rw [pick_asset]
    simp only [Option.getD_some, if_neg he, pyTruthy]
    rw [if_pos (by simpa using hn)]
    have hf : assets.find? (fun x => x.name == some n) = none := by
      rw [List.find?_eq_none]
      intro x hx
      simpa using hall x hx
    rw [hf]
  · intro assets z hz
    have he : assets ≠ [] := by
      intro h0
      subst h0
      simp at hz
    rw [pick_asset]
    simp only [Option.getD_some, if_neg he, pyTruthy]
    rw [if_neg (by simp)]
    rw [hz]
  · intro a
    rw [pick_asset]
    simp only [Option.getD_some, pyTruthy]
    rw [if_neg (by simp), if_neg (by simp)]
    by_cases hza : isZipAsset a = true
    · have hf : List.filter isZipAsset [a] = [a] := by simp [hza]
      rw [hf]
    · have hf : List.filter isZipAsset [a] = [] := by
        simp [List.filter_cons, hza]
      rw [hf]
  · intro assets h2
    have he : assets ≠ [] := by
      intro h0
      subst h0
      simp at h2
    have hlen : 2 ≤ assets.length := by
      have hle := List.length_filter_le isZipAsset assets
      omega
    rw [pick_asset]
    simp only [Option.getD_some, if_neg he, pyTruthy]
    rw [if_neg (by simp)]
    split
    · rename_i z hzeq
      rw [hzeq] at h2
      simp at h2
    · split
      · simp at hlen
      · rfl
  · intro n
    exact ⟨rfl, rfl⟩

/-- C4 witness: the sole zip among three assets is picked; two zips are
ambiguous. -/
theorem pick_asset_resolution_witness :
    pick_asset ⟨some [⟨some "README.md"⟩, ⟨some "pkg.zip"⟩, ⟨some "notes.txt"⟩]⟩
        none = .ok ⟨some "pkg.zip"⟩
    ∧ pick_asset ⟨some [⟨some "a.zip"⟩, ⟨some "b.zip"⟩]⟩ none
        = .error .ambiguous := by
  obtain ⟨_, _, h3, _, h5, _⟩ := pick_asset_resolution
  constructor
  · exact h3 [⟨some "README.md"⟩, ⟨some "pkg.zip"⟩, ⟨some "notes.txt"⟩]
      ⟨some "pkg.zip"⟩ (by decide)
  · exact h5 [⟨some "a.zip"⟩, ⟨some "b.zip"⟩] (by decide)

/-- C6: `test_auth` returns true whenever no token is configured —
including a token normalised away by `token or None` — without touching
the network; with a token it returns true exactly when the `GET /user`
probe returns HTTP 200, and it returns false (its codomain carries no
exception: nothing is raised to the caller) when the probe throws. -/
theorem test_auth_behavior :
    (∀ probe : ProbeOutcome,
        test_auth (GiteaClient.init none) probe = ⟨true, false⟩)
    ∧ (∀ probe : ProbeOutcome,
        test_auth (GiteaClient.init (some "")) probe = ⟨true, false⟩)
    ∧ (∀ (t : String) (code : Nat), t ≠ "" →
        ((test_auth (GiteaClient.init (some t)) (.status code)).ok = true
            ↔ code = 200)
        ∧ (test_auth (GiteaClient.init (some t))
            (.status code)).networkCalled = true)
    ∧ (∀ (t msg : String), t ≠ "" →
        test_auth (GiteaClient.init (some t)) (.throws msg)
          = ⟨false, true⟩) := by
  have hinit : ∀ t : String, t ≠ "" → GiteaClient.init (some t) = ⟨some t⟩ := by
    intro t ht
    unfold GiteaClient.init
    rw [if_pos]
    simpa [pyTruthy] using ht
  refine ⟨fun _ => rfl, fun _ => rfl, ?_, ?_⟩
  · intro t code ht
    rw [hinit t ht]
    exact ⟨by simp [test_auth], rfl⟩
  · intro t msg ht
    rw [hinit t ht]
    rfl

/-- C6 witness: no token gives true with no network call; the token
"tok" gives false on a 401 probe and false when the probe throws. -/
theorem test_auth_behavior_witness :
    test_auth (GiteaClient.init none) (.status 500) = ⟨true, false⟩
    ∧ (test_auth (GiteaClient.init (some "tok")) (.status 401)).ok = false
    ∧ test_auth (GiteaClient.init (some "tok")) (.throws "conn refused")
        = ⟨false, true⟩ := by
  obtain ⟨h1, _, h3, h4⟩ := test_auth_behavior
  refine ⟨h1 (.status 500), ?_, h4 "tok" "conn refused" (by decide)⟩
  have h31 := (h3 "tok" 401 (by decide)).1
  cases hok : (test_auth (GiteaClient.init (some "tok")) (.status 401)).ok with
  | false => rfl
  | true => exact absurd (h31.mp hok) (by decide)

/-- C7 (amended: the readme view is the exception to the JSON body).
Every gateway view catches a raising underlying operation and answers
with an HTTP error status instead of propagating the failure, and every
view except the readme view answers with a JSON error body; the readme
view answers with a plain-text body. -/
theorem gateway_handlers_error_responses (eid : String) (hd : HassData)
    (m : String) (body : BodyParse) :
    (isErrorStatus (reposView_get eid hd (fun _ => .error m)).status = true
      ∧ isJsonError (reposView_get eid hd (fun _ => .error m)).body = true)
    ∧ (isErrorStatus (installView_post eid hd body (.error m)).status = true
      ∧ isJsonError (installView_post eid hd body (.error m)).body = true)
    ∧ (isErrorStatus (refreshView_post eid hd (fun _ => .error m)).status = true
      ∧ isJsonError (refreshView_post eid hd (fun _ => .error m)).body = true)
    ∧ (isErrorStatus (addCustomView_post eid hd body (fun _ => .error m)).status = true
      ∧ isJsonError (addCustomView_post eid hd body (fun _ => .error m)).body = true)
    ∧ (isErrorStatus (hideView_post eid hd body (fun _ => .error m)).status = true
      ∧ isJsonError (hideView_post eid hd body (fun _ => .error m)).body = true)
    ∧ (isErrorStatus (unhideView_post eid hd body (fun _ => .error m)).status = true
      ∧ isJsonError (unhideView_post eid hd body (fun _ => .error m)).body = true)
    ∧ (isErrorStatus (uninstallView_post eid hd body (fun _ => .error m)).status = true
      ∧ isJsonError (uninstallView_post eid hd body (fun _ => .error m)).body = true)
    ∧ (isErrorStatus (readmeView_get eid hd (fun _ => .error m)).status = true
      ∧ ∃ s, (readmeView_get eid hd (fun _ => .error m)).body = .text s) := by
  refine ⟨?_, ?_, ?_, ?_, ?_, ?_, ?_, ?_⟩
  · cases hr : resolveEid hd eid with
    | none => simp [reposView_get, hr, isErrorStatus, isJsonError]
    | some ec =>
      obtain ⟨e, c⟩ := ec
      simp [reposView_get, hr, isErrorStatus, isJsonError]
  · cases hr : resolveEid hd eid with
    | none => simp [installView_post, hr, isErrorStatus, isJsonError]
    | some ec =>
      obtain ⟨e, c⟩ := ec
      cases body with
      | error mb => simp [installView_post, hr, isErrorStatus, isJsonError]
      | ok pr =>
        obtain ⟨o, r⟩ := pr
        cases hto : pyTruthy o <;> cases htr : pyTruthy r <;>
          simp [installView_post, hr, hto, htr, isErrorStatus, isJsonError]
  · cases hr : resolveEid hd eid with
    | none => simp [refreshView_post, hr, isErrorStatus, isJsonError]
    | some ec =>
      obtain ⟨e, c⟩ := ec
      cases hc : c.coordinator <;>
        simp [refreshView_post, hr, hc, isErrorStatus, isJsonError]
  · cases body with
    | error mb => simp [addCustomView_post, isErrorStatus, isJsonError]
    | ok pr =>
      obtain ⟨o, r⟩ := pr
      cases hr : resolveEid hd eid with
      | none =>
        cases hto : pyTruthy o <;> cases htr : pyTruthy r <;>
          simp [addCustomView_post, hr, hto, htr, isErrorStatus, isJsonError]
      | some ec =>
        obtain ⟨e, c⟩ := ec
        cases hto : pyTruthy o <;> cases htr : pyTruthy r <;>
          cases hc : c.coordinator <;>
            simp [addCustomView_post, hr, hto, htr, hc, isErrorStatus, isJsonError]
  · cases body with
    | error mb => simp [hideView_post, isErrorStatus, isJsonError]
    | ok pr =>
      obtain ⟨o, r⟩ := pr
      cases hr : resolveEid hd eid with
      | none => simp [hideView_post, hr, isErrorStatus, isJsonError]
      | some ec =>
        obtain ⟨e, c⟩ := ec
        cases hc : c.coordinator <;>
          simp [hideView_post, hr, hc, isErrorStatus, isJsonError]
  · cases body with
    | error mb => simp [unhideView_post, isErrorStatus, isJsonError]
    | ok pr =>
      obtain ⟨o, r⟩ := pr
      cases hr : resolveEid hd eid with
      | none => simp [unhideView_post, hr, isErrorStatus, isJsonError]
      | some ec =>
        obtain ⟨e, c⟩ := ec
        cases hc : c.coordinator <;>
          simp [unhideView_post, hr, hc, isErrorStatus, isJsonError]
  · cases body with
    | error mb => simp [uninstallView_post, isErrorStatus, isJsonError]
    | ok pr =>
      obtain ⟨o, r⟩ := pr
      cases hr : resolveEid hd eid with
      | none =>
        cases hto : pyTruthy o <;> cases htr : pyTruthy r <;>
          simp [uninstallView_post, hr, hto, htr, isErrorStatus, isJsonError]
      | some ec =>
        obtain ⟨e, c⟩ := ec
        cases hto : pyTruthy o <;> cases htr : pyTruthy r <;>
          cases hc : c.coordinator <;>
            simp [uninstallView_post, hr, hto, htr, hc, isErrorStatus, isJsonError]
  · cases hr : resolveEid hd eid with
    | none =>
      exact ⟨by simp [readmeView_get, hr, isErrorStatus],
        ⟨"Not ready", by simp [readmeView_get, hr]⟩⟩
    | some ec =>
      obtain ⟨e, c⟩ := ec
      cases hcl : c.client with
      | true =>
        exact ⟨by simp [readmeView_get, hr, hcl, isErrorStatus],
          ⟨"Error", by simp [readmeView_get, hr, hcl]⟩⟩
      | false =>
        exact ⟨by simp [readmeView_get, hr, hcl, isErrorStatus],
          ⟨"Error", by simp [readmeView_get, hr, hcl]⟩⟩

/-- C7 counterexample: the claim as stated requires a JSON error body
from every handler, but the readme view on a raising fetch answers 500
with the plain-text body "Error", which is not a JSON error object. -/
theorem readme_error_body_not_json :
    (readmeView_get "e1" (some [("e1", ⟨true, true⟩)])
        (fun _ => .error "boom")).status = 500
    ∧ (readmeView_get "e1" (some [("e1", ⟨true, true⟩)])
        (fun _ => .error "boom")).body = .text "Error"
    ∧ isJsonError (readmeView_get "e1" (some [("e1", ⟨true, true⟩)])
        (fun _ => .error "boom")).body = false := by
  refine ⟨?_, ?_, ?_⟩ <;> decide

theorem resolveEid_cons_isSome (p : String × Comp) (rest : List (String × Comp))
    (eid : String) :
    ∃ e c, resolveEid (some (p :: rest)) eid = some (e, c) := by
  cases hl : List.lookup eid (p :: rest) with
  | some c => exact ⟨eid, c, by simp [resolveEid, hl]⟩
  | none => exact ⟨p.1, p.2, by simp [resolveEid, hl]⟩

/-- C8: every view resolves an unknown stored entry id against the
first configured instance instead of failing — `resolveEid`, the shared
resolution prologue, falls back to the head of the instance dict when
the id is absent, and the refresh view then drives its operation with
that first entry id — and a view answers its 503 "not ready" error only
when zero instances are configured (the domain dict is absent or
empty), shown for all eight views. -/
theorem gateway_instance_fallback :
    (∀ (comps : List (String × Comp)) (eid : String),
        comps.lookup eid = none → resolveEid (some comps) eid = comps.head?)
    ∧ (∀ (hd : HassData) (eid : String),
        resolveEid hd eid = none ↔ hd = none ∨ hd = some [])
    ∧ (∀ (eid k : String) (c : Comp) (rest : List (String × Comp))
          (op : String → Except String Unit),
        ((k, c) :: rest).lookup eid = none →
        refreshView_post eid (some ((k, c) :: rest)) op
          = if c.coordinator then
              match op k with
              | .ok _ => ⟨200, .jsonOk⟩
              | .error m => ⟨500, .jsonError m⟩
            else ⟨503, .jsonError "Coordinator missing"⟩)
    ∧ (∀ (eid : String) (hd : HassData) (op : String → Except String Unit),
        reposView_get eid hd op = ⟨503, .jsonError "Integration not ready"⟩ →
        hd = none ∨ hd = some [])
    ∧ (∀ (eid : String) (hd : HassData) (body : BodyParse)
          (svc : Except String Unit),
        installView_post eid hd body svc
            = ⟨503, .jsonError "Integration not ready"⟩ →
        hd = none ∨ hd = some [])
    ∧ (∀ (eid : String) (hd : HassData)
          (op : String → Except String (Option String)),
        readmeView_get eid hd op = ⟨503, .text "Not ready"⟩ →
        hd = none ∨ hd = some [])
    ∧ (∀ (eid : String) (hd : HassData) (op : String → Except String Unit),
        refreshView_post eid hd op = ⟨503, .jsonError "Integration not ready"⟩ →
        hd = none ∨ hd = some [])
    ∧ (∀ (eid : String) (hd : HassData) (body : BodyParse)
          (op : String → Except String Unit),
        addCustomView_post eid hd body op = ⟨503, .jsonError "Not ready"⟩ →
        hd = none ∨ hd = some [])
    ∧ (∀ (eid : String) (hd : HassData) (body : BodyParse)
          (op : String → Except String Unit),
        hideView_post eid hd body op = ⟨503, .jsonError "Not ready"⟩ →
        hd = none ∨ hd = some [])
    ∧ (∀ (eid : String) (hd : HassData) (body : BodyParse)
          (op : String → Except String Unit),
        unhideView_post eid hd body op = ⟨503, .jsonError "Not ready"⟩ →
        hd = none ∨ hd = some [])
    ∧ (∀ (eid : String) (hd : HassData) (body : BodyParse)
          (op : String → Except String Unit),
        uninstallView_post eid hd body op = ⟨503, .jsonError "Not ready"⟩ →
        hd = none ∨ hd = some []) := by
  refine ⟨?_, ?_, ?_, ?_, ?_, ?_, ?_, ?_, ?_, ?_, ?_⟩
  · intro comps eid h
    simp [resolveEid, h]
  · intro hd eid
    constructor
    · intro h
      cases hd with
      | none => exact Or.inl rfl
      | some comps =>
        cases comps with
        | nil => exact Or.inr rfl
        | cons p rest =>
          obtain ⟨e, c, hres⟩ := resolveEid_cons_isSome p rest eid
          rw [hres] at h
          cases h
    · rintro (rfl | rfl) <;> rfl
  · intro eid k c rest op h
    have hres : resolveEid (some ((k, c) :: rest)) eid = some (k, c) := by
      simp [resolveEid, h]
    simp only [refreshView_post, hres]
  · intro eid hd op h
    cases hd with
    | none => exact Or.inl rfl
    | some comps =>
      cases comps with
      | nil => exact Or.inr rfl
      | cons p rest =>
        exfalso
        obtain ⟨e, c, hres⟩ := resolveEid_cons_isSome p rest eid
        cases hop : op e <;> simp [reposView_get, hres, hop] at h
  · intro eid hd body svc h
    cases hd with
    | none => exact Or.inl rfl
    | some comps =>
      cases comps with
      | nil => exact Or.inr rfl
      | cons p rest =>
        exfalso
        obtain ⟨e, c, hres⟩ := resolveEid_cons_isSome p rest eid
        cases body with
        | error mb => simp [installView_post, hres] at h
        | ok pr =>
          obtain ⟨o, r⟩ := pr
          cases hto : pyTruthy o <;> cases htr : pyTruthy r <;>
            cases hsv : svc <;>
              simp [installView_post, hres, hto, htr, hsv] at h
  · intro eid hd op h
    cases hd with
    | none => exact Or.inl rfl
    | some comps =>
      cases comps with
      | nil => exact Or.inr rfl
      | cons p rest =>
        exfalso
        obtain ⟨e, c, hres⟩ := resolveEid_cons_isSome p rest eid
        cases hcl : c.client <;> cases hop : op e <;>
          simp [readmeView_get, hres, hcl, hop] at h
  · intro eid hd op h
    cases hd with
    | none => exact Or.inl rfl
    | some comps =>
      cases comps with
      | nil => exact Or.inr rfl
      | cons p rest =>
        exfalso
        obtain ⟨e, c, hres⟩ := resolveEid_cons_isSome p rest eid
        cases hc : c.coordinator <;> cases hop : op e <;>
          simp [refreshView_post, hres, hc, hop] at h
  · intro eid hd body op h
    cases hd with
    | none => exact Or.inl rfl
    | some comps =>
      cases comps with
      | nil => exact Or.inr rfl
      | cons p rest =>
        exfalso
        obtain ⟨e, c, hres⟩ := resolveEid_cons_isSome p rest eid
        cases body with
        | error mb => simp [addCustomView_post] at h
        | ok pr =>
          obtain ⟨o, r⟩ := pr
          cases hto : pyTruthy o <;> cases htr : pyTruthy r <;>
            cases hc : c.coordinator <;> cases hop : op e <;>
              simp [addCustomView_post, hres, hto, htr, hc, hop] at h
  · intro eid hd body op h
    cases hd with
    | none => exact Or.inl rfl
    | some comps =>
      cases comps with
      | nil => exact Or.inr rfl
      | cons p rest =>
        exfalso
        obtain ⟨e, c, hres⟩ := resolveEid_cons_isSome p rest eid
        cases body with
        | error mb => simp [hideView_post] at h
        | ok pr =>
          cases hc : c.coordinator <;> cases hop : op e <;>
            simp [hideView_post, hres, hc, hop] at h
  · intro eid hd body op h
    cases hd with
    | none => exact Or.inl rfl
    | some comps =>
      cases comps with
      | nil => exact Or.inr rfl
      | cons p rest =>
        exfalso
        obtain ⟨e, c, hres⟩ := resolveEid_cons_isSome p rest eid
        cases body with
        | error mb => simp [unhideView_post] at h
        | ok pr =>
          cases hc : c.coordinator <;> cases hop : op e <;>
            simp [unhideView_post, hres, hc, hop] at h
  · intro eid hd body op h
    cases hd with
    | none => exact Or.inl rfl
    | some comps =>
      cases comps with
      | nil => exact Or.inr rfl
      | cons p rest =>
        exfalso
        obtain ⟨e, c, hres⟩ := resolveEid_cons_isSome p rest eid
        cases body with
        | error mb => simp [uninstallView_post] at h
        | ok pr =>
          obtain ⟨o, r⟩ := pr
          cases hto : pyTruthy o <;> cases htr : pyTruthy r <;>
            cases hc : c.coordinator <;> cases hop : op e <;>
              simp [uninstallView_post, hres, hto, htr, hc, hop] at h

/-- C8 witness: with one configured instance "e1" and a stored entry id
"gone", the refresh view runs its operation against "e1" and succeeds
instead of failing. -/
theorem gateway_instance_fallback_witness :
    resolveEid (some [("e1", ⟨true, true⟩)]) "gone" = some ("e1", ⟨true, true⟩)
    ∧ refreshView_post "gone" (some [("e1", ⟨true, true⟩)])
        (fun e => if e = "e1" then .ok () else .error "wrong instance")
      = ⟨200, .jsonOk⟩ := by
  obtain ⟨h1, _, h3, _⟩ := gateway_instance_fallback
  constructor
  · have := h1 [("e1", ⟨true, true⟩)] "gone" (by decide)
    simpa using this
  · have := h3 "gone" "e1" ⟨true, true⟩ []
      (fun e => if e = "e1" then .ok () else .error "wrong instance")
      (by decide)
    simpa using this

end OnOffStore
